import Mathlib

/-!
Shallow embedding of the `rrd-tool` round-robin time-series store
(package `round_robin`: `__init__.py`, `db.py`, `redisdb.py`).

Modelling conventions:
* timestamps are `Nat` (seconds since epoch); truncation to minute/hour
  boundaries follows `timestamp_minute` / `timestamp_hour`;
* sample values are `Int` (the claims under study do not depend on
  fractional values, and Python's `min` on numbers is mathematical `min`);
* Python `None` becomes `Option.none`; Python 2's `min(None, v) = None`
  (because `None` compares below every number) is `pymin`;
* each backend object is a record; methods that read the memoized
  `_last_timestamp` attribute or the redis-side in-process caches are
  written in state-passing style so that memoization effects are exact;
* a method that can raise returns `Except String _`; a method that may
  mutate before raising returns `Except String Unit × State`.
-/

namespace RRD

/-- Python 2 `min` applied to an optional number and a number:
`None` compares below every number, so `min(None, v) = None`. -/
def pymin : Option Int → Int → Option Int
  | none, _ => none
  | some x, v => some (min x v)

/-- `timestamp_minute`: truncate a timestamp to the start of its minute. -/
def minuteTrunc (t : Nat) : Nat := 60 * (t / 60)

/-- `timestamp_hour`: truncate a timestamp to the start of its hour. -/
def hourTrunc (t : Nat) : Nat := 3600 * (t / 3600)

/-- Python truthiness of an optional integer (`if self.last_timestamp:`):
`None` and `0` are falsy, every other number is truthy. -/
def pyTruthy : Option Nat → Bool
  | none => false
  | some n => n != 0

/-- Python `range(a, b, s)` for a positive step `s`:
`[a, a+s, a+2*s, ...]` strictly below `b`. -/
def pyRange (a b s : Nat) : List Nat :=
  (List.range ((b - a + s - 1) / s)).map (fun k => a + s * k)

/-- One row of a ring table: `(Timestamp, Value)`, both nullable.
A fully null row is an unwritten slot. -/
structure Slot where
  ts : Option Nat
  val : Option Int
deriving DecidableEq

/-- An unwritten slot (both fields null). -/
def emptySlot : Slot := ⟨none, none⟩

/-- The two rings of the store. -/
inductive Ring where
  | minutes
  | hours
deriving DecidableEq

/-! ### Engine-level batch construction (`RoundRobinDb.save`, lines 140-188)

The bodies of the minute and hour write-batches are pure functions of the
(pre-save) `last_timestamp` / `last_hour_timestamp`, the truncated
timestamps and the value; both backends share them, exactly as both
backends share `RoundRobinDb.save`. -/

/-- The minute write-batch built in `save` (lines 147-160): gap-fill
placeholders from `range(60, min(elapsed_secs, 60**2), 60)`, reversed,
followed by the new `(minute_ts, value)` sample.  Note the source guards
the elapsed computation with `if self.last_timestamp:` (truthiness), not
`is not None`. -/
def minuteData (lastTs : Option Nat) (minuteTs : Nat) (value : Int) :
    List (Nat × Option Int) :=
  let elapsedSecs := if pyTruthy lastTs then minuteTs - lastTs.getD 0 else 0
  let elapsedValues :=
    (pyRange 60 (min elapsedSecs 3600) 60).map
      (fun t => (minuteTs - t, (none : Option Int)))
  elapsedValues.reverse ++ [(minuteTs, some value)]

/-- The hour gap-fill placeholders built in `save` (lines 168-176):
`range(60**2, min(elapsed_secs, 24*60**2), 60**2)` applied to
`hour_ts - t`, reversed.  The elapsed seconds are measured from
`minute_ts` (not `hour_ts`) to `last_hour_timestamp`. -/
def hourPlaceholders (lastHour : Option Nat) (minuteTs hourTs : Nat) :
    List (Nat × Option Int) :=
  let elapsedSecs := match lastHour with
    | some lh => minuteTs - lh
    | none => 0
  ((pyRange 3600 (min elapsedSecs 86400) 3600).map
      (fun t => (hourTs - t, (none : Option Int)))).reverse

/-- The hour write-batch handed to `save_timestamps` (lines 178-187):
empty when folding into the current hour, otherwise the placeholders
followed by `(hour_ts, value)`. -/
def hourData (lastHour : Option Nat) (minuteTs hourTs : Nat) (value : Int) :
    List (Nat × Option Int) :=
  if lastHour == some hourTs then []
  else hourPlaceholders lastHour minuteTs hourTs ++ [(hourTs, some value)]

/-! ### The SQLite backend (`db.py`) -/

/-- State of `SqliteRoundRobinDb`: the `Minutes` table (60 rows, row id =
list index), the `Hours` table (24 rows), and the memoized
`_last_timestamp` attribute (`none` = attribute absent, `some v` =
attribute holds `v`, which itself may be the SQL `NULL` = `none`). -/
structure SqliteDb where
  minutes : List Slot
  hours : List Slot
  cache : Option (Option Nat)
deriving DecidableEq

/-- A freshly created database after `_check_and_init_db`: both tables
pre-populated at full capacity with null rows, no memoized attribute. -/
def initSqlite : SqliteDb :=
  ⟨List.replicate 60 emptySlot, List.replicate 24 emptySlot, none⟩

/-- `SELECT timestamp FROM Minutes ORDER BY timestamp DESC LIMIT 1`:
the greatest non-null timestamp, or `none` when every row is null
(SQL `NULL` sorts below every value). -/
def maxTimestamp (slots : List Slot) : Option Nat :=
  slots.foldl
    (fun acc s =>
      match s.ts, acc with
      | some t, some m => some (max m t)
      | some t, none => some t
      | none, a => a)
    none

/-- The `last_timestamp` property (db.py lines 116-126): return the
memoized value when the attribute exists and is not `None`; otherwise
query the `Minutes` table and memoize the result. -/
def SqliteDb.readLastTimestamp (db : SqliteDb) : Option Nat × SqliteDb :=
  match db.cache with
  | some (some v) => (some v, db)
  | _ =>
    let v := maxTimestamp db.minutes
    (v, { db with cache := some v })

/-- `SELECT id FROM table WHERE timestamp=?`: the first row id whose
timestamp equals the argument. -/
def findTsIdx (slots : List Slot) (t : Nat) : Option Nat :=
  slots.findIdx? (fun s => s.ts == some t)

/-- Select a ring's table contents. -/
def ringSelect (db : SqliteDb) : Ring → List Slot
  | .minutes => db.minutes
  | .hours => db.hours

/-- `get_timestamp_index` (db.py lines 128-140) without its caller-chosen
default: `none` models both a `None` timestamp argument (SQL `NULL`
matches no row) and a timestamp absent from the table. -/
def SqliteDb.getTimestampIndex (db : SqliteDb) (t : Option Nat) (r : Ring) :
    Option Nat :=
  t.bind (findTsIdx (ringSelect db r))

/-- `read_all` (db.py lines 88-114): all rows ordered by row id. -/
def SqliteDb.readAll (db : SqliteDb) (r : Ring) : List Slot :=
  ringSelect db r

/-- `get_timestamp_value` (db.py lines 142-150).  When the timestamp is
not in the table, the inner query `SELECT value ... WHERE Id=NULL`
matches no row, `cur.fetchone()` is `None`, and `value[0]` raises a
`TypeError`; when the row exists the (possibly null) value is returned. -/
def SqliteDb.getTimestampValue (db : SqliteDb) (r : Ring) (t : Nat) :
    Except String (Option Int) :=
  match findTsIdx (ringSelect db r) t with
  | none => .error "TypeError"
  | some i => .ok (((ringSelect db r).get? i).bind Slot.val)

/-- `_update_table_row` (db.py lines 83-86): `UPDATE ... WHERE Id=?`.
An id with no matching row (beyond the table length) updates nothing,
which is exactly `List.set` out of range. -/
def updateTableRow (slots : List Slot) (id : Nat) (t : Nat) (v : Option Int) :
    List Slot :=
  slots.set id ⟨some t, v⟩

/-- `update_timestamp` (db.py lines 152-159): resolve the timestamp's row
id (default `None`) and raise when absent, else rewrite that row. -/
def SqliteDb.updateTimestamp (db : SqliteDb) (r : Ring) (t : Nat)
    (v : Option Int) : Except String SqliteDb :=
  match findTsIdx (ringSelect db r) t with
  | none => .error "Timestamp does not exist in the database."
  | some i =>
    match r with
    | .minutes => .ok { db with minutes := updateTableRow db.minutes i t v }
    | .hours => .ok { db with hours := updateTableRow db.hours i t v }

/-- `(get_timestamp_index(ts, table, -1) + 1)`: the write cursor used by
`save_timestamps`. -/
def startIdx (slots : List Slot) (t : Option Nat) : Nat :=
  match t with
  | none => 0
  | some ts =>
    match findTsIdx slots ts with
    | none => 0
    | some i => i + 1

/-- The row-writing loop of `save_timestamps`:
`self._update_table_row(table, (ix + start_index) % m, ts, value)` for
each enumerated batch entry. -/
def writeRows (slots : List Slot) (m start : Nat)
    (data : List (Nat × Option Int)) : List Slot :=
  data.enum.foldl
    (fun acc p => updateTableRow acc ((p.1 + start) % m) p.2.1 p.2.2)
    slots

/-- `save_timestamps` (db.py lines 161-175).  The minute rows are written
first; the hour cursor is then computed from `last_hour_timestamp`, whose
`last_timestamp` read happens after the minute writes.  The source wraps
the hour index with `% 60` (line 173), not `% 24`. -/
def SqliteDb.saveTimestamps (db : SqliteDb)
    (dataM dataH : List (Nat × Option Int)) : SqliteDb :=
  let p := db.readLastTimestamp
  let db1 := p.2
  let mins := writeRows db1.minutes 60 (startIdx db1.minutes p.1) dataM
  let db2 := { db1 with minutes := mins }
  let q := db2.readLastTimestamp
  let db3 := q.2
  let lh := q.1.map hourTrunc
  let hrs := writeRows db3.hours 60 (startIdx db3.hours lh) dataH
  { db3 with hours := hrs }

/-- The new-minute branch of `RoundRobinDb.save` (lines 140-188)
specialized to the SQLite backend: build both batches, fold the hour
slot in place when the hour is unchanged, then submit through
`save_timestamps`. -/
def sqliteSaveNew (db : SqliteDb) (lt : Option Nat) (minuteTs hourTs : Nat)
    (value : Int) : Except String Unit × SqliteDb :=
  let dataM := minuteData lt minuteTs value
  let lh := lt.map hourTrunc
  let dataH := hourData lh minuteTs hourTs value
  if lh == some hourTs then
    match db.getTimestampValue .hours hourTs with
    | .error e => (.error e, db)
    | .ok hv =>
      match db.updateTimestamp .hours hourTs (pymin hv value) with
      | .error e => (.error e, db)
      | .ok db2 => (.ok (), db2.saveTimestamps dataM [])
  else (.ok (), db.saveTimestamps dataM dataH)

/-- `RoundRobinDb.save` (lines 121-188) running on the SQLite backend:
reject older minutes, fold a same-minute re-save into the existing
minute and hour slots with `min`, otherwise append the gap-filled
batches. -/
def SqliteDb.save (db : SqliteDb) (timestamp : Nat) (value : Int) :
    Except String Unit × SqliteDb :=
  let minuteTs := minuteTrunc timestamp
  let hourTs := hourTrunc timestamp
  let p := db.readLastTimestamp
  let db1 := p.2
  match p.1 with
  | some L =>
    if minuteTs < L then
      (.error "Timestamp must be greater than last_timestamp", db1)
    else if minuteTs = L then
      match db1.getTimestampValue .minutes minuteTs with
      | .error e => (.error e, db1)
      | .ok mv =>
        match db1.updateTimestamp .minutes minuteTs (pymin mv value) with
        | .error e => (.error e, db1)
        | .ok db2 =>
          match db2.getTimestampValue .hours hourTs with
          | .error e => (.error e, db2)
          | .ok hv =>
            match db2.updateTimestamp .hours hourTs (pymin hv value) with
            | .error e => (.error e, db2)
            | .ok db3 => (.ok (), db3)
    else sqliteSaveNew db1 (some L) minuteTs hourTs value
  | none => sqliteSaveNew db1 none minuteTs hourTs value

/-- The `minutes` property (`__init__.py` lines 96-107): read all rows,
resolve the index of `last_timestamp` (default 0), and rotate so the slot
after the last-written one comes first. -/
def SqliteDb.minutesProp (db : SqliteDb) : List Slot × SqliteDb :=
  let values := db.readAll .minutes
  let p := db.readLastTimestamp
  let i := (p.2.getTimestampIndex p.1 .minutes).getD 0
  (values.drop (i + 1) ++ values.take (i + 1), p.2)

/-- `open_database` (`__init__.py` lines 190-206) on a store that does not
yet exist: only the `SQLite` engine tag is accepted, and construction runs
`_check_and_init_db`, which creates both tables at full capacity. -/
def open_database (engine : String) : Except String SqliteDb :=
  if engine = "SQLite" then .ok initSqlite
  else .error "Only SQLite backing is supported."

/-! ### The key-value (redis) backend (`redisdb.py`) -/

/-- State of `RedisRoundRobinDb`: one key per slot (`min0..min59`,
`hour0..hour23`), each holding a `(timestamp, value)` pair or absent; the
`last_timestamp` key; and the two in-process ring caches
(`_mins_cache`, `_hours_cache`).  A cache is a dict from timestamp to
`(index, value)`, represented as a list of `(timestamp, index, value)`
triples with unique timestamps. -/
structure RedisDb where
  mins : List (Option (Nat × Option Int))
  hours : List (Option (Nat × Option Int))
  lastTs : Option Nat
  minsCache : Option (List (Nat × Nat × Option Int))
  hoursCache : Option (List (Nat × Nat × Option Int))
deriving DecidableEq

/-- A fresh redis store: no slot keys, no `last_timestamp` key, both
in-process caches unset. -/
def initRedis : RedisDb :=
  ⟨List.replicate 60 none, List.replicate 24 none, none, none, none⟩

/-- `_get_filtered_cache` (redisdb.py lines 36-40): walk the slot keys in
index order, keep the non-absent ones keyed by timestamp; a later index
with the same timestamp overwrites the dict entry of an earlier one. -/
def buildCache (store : List (Option (Nat × Option Int))) :
    List (Nat × Nat × Option Int) :=
  (List.range store.length).foldl
    (fun acc d =>
      match store.get? d with
      | some (some (ts, v)) => acc.filter (fun e => e.1 != ts) ++ [(ts, d, v)]
      | _ => acc)
    []

/-- `_get_minutes` (redisdb.py lines 42-46): populate the minute cache on
first use. -/
def RedisDb.getMinutes (db : RedisDb) :
    List (Nat × Nat × Option Int) × RedisDb :=
  match db.minsCache with
  | some c => (c, db)
  | none =>
    let c := buildCache db.mins
    (c, { db with minsCache := some c })

/-- `_get_hours` (redisdb.py lines 48-52): populate the hour cache on
first use. -/
def RedisDb.getHours (db : RedisDb) :
    List (Nat × Nat × Option Int) × RedisDb :=
  match db.hoursCache with
  | some c => (c, db)
  | none =>
    let c := buildCache db.hours
    (c, { db with hoursCache := some c })

/-- `cache.get(timestamp)`: dict lookup by timestamp (a `None` key is
never present). -/
def cacheGet (c : List (Nat × Nat × Option Int)) (t : Option Nat) :
    Option (Nat × Option Int) :=
  match t with
  | none => none
  | some ts => (c.find? (fun e => e.1 == ts)).map (fun e => (e.2.1, e.2.2))

/-- `get_timestamp_data` (redisdb.py lines 70-75): look the timestamp up
in the ring's cache (populating the cache if needed). -/
def RedisDb.getTimestampData (db : RedisDb) (r : Ring) (t : Option Nat) :
    Option (Nat × Option Int) × RedisDb :=
  match r with
  | .minutes =>
    let p := db.getMinutes
    (cacheGet p.1 t, p.2)
  | .hours =>
    let p := db.getHours
    (cacheGet p.1 t, p.2)

/-- `get_timestamp_index` (redisdb.py lines 77-83) without its
caller-chosen default: the slot index holding the timestamp, if any. -/
def RedisDb.getTimestampIndex (db : RedisDb) (t : Option Nat) (r : Ring) :
    Option Nat × RedisDb :=
  let p := db.getTimestampData r t
  (p.1.map Prod.fst, p.2)

/-- `get_timestamp_value` (redisdb.py lines 89-92): `None` when the
timestamp is absent, the stored (possibly `None`) value otherwise. -/
def RedisDb.getTimestampValue (db : RedisDb) (r : Ring) (t : Nat) :
    Option Int × RedisDb :=
  let p := db.getTimestampData r (some t)
  (match p.1 with
   | none => none
   | some (_, v) => v, p.2)

/-- `_update` (redisdb.py lines 85-87): set one slot key.  Neither ring
cache is touched. -/
def RedisDb.update (db : RedisDb) (r : Ring) (i : Nat) (t : Nat)
    (v : Option Int) : RedisDb :=
  match r with
  | .minutes => { db with mins := db.mins.set i (some (t, v)) }
  | .hours => { db with hours := db.hours.set i (some (t, v)) }

/-- `update_timestamp` (redisdb.py lines 94-100): resolve the timestamp's
index, raise when absent, else rewrite that slot key in place. -/
def RedisDb.updateTimestamp (db : RedisDb) (r : Ring) (t : Nat)
    (v : Option Int) : Except String RedisDb :=
  let p := db.getTimestampIndex (some t) r
  match p.1 with
  | none => .error "Timestamp does not exist in the database."
  | some i => .ok (p.2.update r i t v)

/-- The slot-writing loop of the redis `save_timestamps`:
`self._update(table, (ix + start_index) % m, ts, value)` per entry. -/
def redisWriteRows (db : RedisDb) (r : Ring) (m start : Nat)
    (data : List (Nat × Option Int)) : RedisDb :=
  data.enum.foldl
    (fun acc p => acc.update r ((p.1 + start) % m) p.2.1 p.2.2)
    db

/-- `save_timestamps` (redisdb.py lines 102-115): write the minute batch
starting after `last_timestamp`'s slot (wrapping at 60), write the hour
batch starting after `last_hour_timestamp`'s slot (wrapping at 24), then
set the `last_timestamp` key to the minute batch's final timestamp
(`data['minutes'][-1][0]`, an `IndexError` on an empty batch) and drop
both ring caches. -/
def RedisDb.saveTimestamps (db : RedisDb)
    (dataM dataH : List (Nat × Option Int)) : Except String RedisDb :=
  let p := db.getTimestampIndex db.lastTs .minutes
  let start := match p.1 with
    | none => 0
    | some i => i + 1
  let db2 := redisWriteRows p.2 .minutes 60 start dataM
  let lh := db2.lastTs.map hourTrunc
  let q := db2.getTimestampIndex lh .hours
  let hstart := match q.1 with
    | none => 0
    | some i => i + 1
  let db4 := redisWriteRows q.2 .hours 24 hstart dataH
  match dataM.getLast? with
  | none => .error "IndexError"
  | some e =>
    .ok { db4 with lastTs := some e.1, minsCache := none, hoursCache := none }

/-- The new-minute branch of `RoundRobinDb.save` specialized to the redis
backend (same engine code as `sqliteSaveNew`, different primitives). -/
def redisSaveNew (db : RedisDb) (lt : Option Nat) (minuteTs hourTs : Nat)
    (value : Int) : Except String Unit × RedisDb :=
  let dataM := minuteData lt minuteTs value
  let lh := lt.map hourTrunc
  let dataH := hourData lh minuteTs hourTs value
  if lh == some hourTs then
    let p := db.getTimestampValue .hours hourTs
    match p.2.updateTimestamp .hours hourTs (pymin p.1 value) with
    | .error e => (.error e, p.2)
    | .ok db2 =>
      match db2.saveTimestamps dataM [] with
      | .error e => (.error e, db2)
      | .ok db3 => (.ok (), db3)
  else
    match db.saveTimestamps dataM dataH with
    | .error e => (.error e, db)
    | .ok db1 => (.ok (), db1)

/-- `RoundRobinDb.save` running on the redis backend.  The
`last_timestamp` property here reads the redis key directly (no
memoization), so every read inside one `save` sees the same value. -/
def RedisDb.save (db : RedisDb) (timestamp : Nat) (value : Int) :
    Except String Unit × RedisDb :=
  let minuteTs := minuteTrunc timestamp
  let hourTs := hourTrunc timestamp
  match db.lastTs with
  | some L =>
    if minuteTs < L then
      (.error "Timestamp must be greater than last_timestamp", db)
    else if minuteTs = L then
      let p := db.getTimestampValue .minutes minuteTs
      match p.2.updateTimestamp .minutes minuteTs (pymin p.1 value) with
      | .error e => (.error e, p.2)
      | .ok db2 =>
        let q := db2.getTimestampValue .hours hourTs
        match q.2.updateTimestamp .hours hourTs (pymin q.1 value) with
        | .error e => (.error e, q.2)
        | .ok db4 => (.ok (), db4)
    else redisSaveNew db (some L) minuteTs hourTs value
  | none => redisSaveNew db none minuteTs hourTs value

/-! ### Concrete fixture states used by witnesses and counterexamples -/

/-- A store holding one prior save `(60, 25.0)` in both rings, memoized
attribute absent (as after reopening the database). -/
def dbAfter60 : SqliteDb :=
  ⟨⟨some 60, some 25⟩ :: List.replicate 59 emptySlot,
   ⟨some 0, some 25⟩ :: List.replicate 23 emptySlot,
   none⟩

/-- A store whose `Hours` table has its last-written hour in row id 23
(the hour ring is full), with a matching `Minutes` row. -/
def dbHourRow23 : SqliteDb :=
  ⟨⟨some 82800, some 1⟩ :: List.replicate 59 emptySlot,
   List.replicate 23 emptySlot ++ [⟨some 82800, some 1⟩],
   none⟩

/-- A store holding one prior save at minute 60 (value 25) whose hour slot
holds 30, with the `_last_timestamp` attribute memoized to 60. -/
def dbFold : SqliteDb :=
  ⟨⟨some 60, some 25⟩ :: List.replicate 59 emptySlot,
   ⟨some 0, some 30⟩ :: List.replicate 23 emptySlot,
   some (some 60)⟩

/-- One SQLite connection after `save(60, 25)` then `save(120, 30)`. -/
def sqTwoSaves : SqliteDb :=
  (SqliteDb.save ((SqliteDb.save initSqlite 60 25).2) 120 30).2

/-- One redis connection after `save(60, 25)` then `save(120, 30)`. -/
def rdTwoSaves : RedisDb :=
  (RedisDb.save ((RedisDb.save initRedis 60 25).2) 120 30).2

/-- One SQLite connection after the gap-free sequence `save(60, 25)`,
`save(120, 30)`, `save(180, 35)`. -/
def sqThreeSaves : SqliteDb :=
  (SqliteDb.save sqTwoSaves 180 35).2

/-! ### Helper lemmas about the memoized `last_timestamp` read -/

/-- Reading the `last_timestamp` property never changes the `Minutes`
table. -/
theorem readLastTimestamp_minutes (db : SqliteDb) :
    ((db.readLastTimestamp).2).minutes = db.minutes := by
  cases hc : db.cache with
  | none => simp [SqliteDb.readLastTimestamp, hc]
  | some o => cases o <;> simp [SqliteDb.readLastTimestamp, hc]

/-- Reading the `last_timestamp` property never changes the `Hours`
table. -/
theorem readLastTimestamp_hours (db : SqliteDb) :
    ((db.readLastTimestamp).2).hours = db.hours := by
  cases hc : db.cache with
  | none => simp [SqliteDb.readLastTimestamp, hc]
  | some o => cases o <;> simp [SqliteDb.readLastTimestamp, hc]

/-- Reading the `last_timestamp` property twice yields the same value and
the same state: the first read memoizes. -/
theorem readLastTimestamp_read (db : SqliteDb) :
    ((db.readLastTimestamp).2).readLastTimestamp =
      ((db.readLastTimestamp).1, (db.readLastTimestamp).2) := by
  cases hc : db.cache with
  | none =>
    cases hm : maxTimestamp db.minutes <;>
      simp [SqliteDb.readLastTimestamp, hc, hm]
  | some o =>
    cases o with
    | none =>
      cases hm : maxTimestamp db.minutes <;>
        simp [SqliteDb.readLastTimestamp, hc, hm]
    | some v => simp [SqliteDb.readLastTimestamp, hc]

/-- `save_timestamps` with an empty hour batch leaves the `Hours` table
unchanged (the hour write loop runs zero times). -/
theorem saveTimestamps_hours_empty (db : SqliteDb)
    (dataM : List (Nat × Option Int)) :
    (db.saveTimestamps dataM []).hours = db.hours := by
  simp only [SqliteDb.saveTimestamps, writeRows, List.enum_nil,
    List.foldl_nil]
  rw [readLastTimestamp_hours]
  exact readLastTimestamp_hours db

/-- The new-minute branch of `save` in the same-hour case: the existing
hour slot is rewritten in place to the minimum of its value and the new
value, and the hour table is otherwise untouched. -/
theorem sqliteSaveNew_fold (db : SqliteDb) (lt minuteTs hourTs j : Nat)
    (v w : Int)
    (hlh : hourTrunc lt = hourTs)
    (hj : findTsIdx db.hours hourTs = some j)
    (hgj : db.hours[j]? = some ⟨some hourTs, some w⟩) :
    (sqliteSaveNew db (some lt) minuteTs hourTs v).1 = .ok () ∧
    ((sqliteSaveNew db (some lt) minuteTs hourTs v).2).hours =
      db.hours.set j ⟨some hourTs, some (min w v)⟩ := by
  have hval : db.getTimestampValue .hours hourTs = .ok (some w) := by
    simp [SqliteDb.getTimestampValue, ringSelect, hj, hgj]
  have hupd : db.updateTimestamp .hours hourTs (pymin (some w) v) =
      .ok { db with
            hours := updateTableRow db.hours j hourTs (some (min w v)) } := by
    simp [SqliteDb.updateTimestamp, ringSelect, hj, pymin]
  have hsn : sqliteSaveNew db (some lt) minuteTs hourTs v =
      (.ok (),
       SqliteDb.saveTimestamps
         { db with
           hours := updateTableRow db.hours j hourTs (some (min w v)) }
         (minuteData (some lt) minuteTs v) []) := by
    simp [sqliteSaveNew, hlh, hval, hupd]
  rw [hsn]
  refine ⟨rfl, ?_⟩
  rw [saveTimestamps_hours_empty]
  simp [updateTableRow]

/-! ### The claims -/

/-- **C1.** For every store state with a prior save (the `last_timestamp`
property reads as `some L`) and every input whose minute-truncated
timestamp is strictly less than `L`, `save` fails with the
ordering-violation `ValueError` and leaves both rings and
`last_timestamp` unchanged. -/
theorem claim1_stale_save_rejected (db : SqliteDb) (L t : Nat) (v : Int)
    (hL : (db.readLastTimestamp).1 = some L) (hlt : minuteTrunc t < L) :
    (db.save t v).1 =
      .error "Timestamp must be greater than last_timestamp" ∧
    ((db.save t v).2).minutes = db.minutes ∧
    ((db.save t v).2).hours = db.hours ∧
    (((db.save t v).2).readLastTimestamp).1 = some L := by
  have hsave : db.save t v =
      (.error "Timestamp must be greater than last_timestamp",
       (db.readLastTimestamp).2) := by
    simp [SqliteDb.save, hL, hlt]
  rw [hsave]
  refine ⟨rfl, readLastTimestamp_minutes db, readLastTimestamp_hours db, ?_⟩
  rw [readLastTimestamp_read]
  exact hL

/-- Witness for C1: the store after a save at minute 60 rejects a save at
timestamp 0 and is left unchanged. -/
theorem claim1_witness :
    (dbAfter60.save 0 5).1 =
      .error "Timestamp must be greater than last_timestamp" ∧
    ((dbAfter60.save 0 5).2).minutes = dbAfter60.minutes ∧
    ((dbAfter60.save 0 5).2).hours = dbAfter60.hours ∧
    (((dbAfter60.save 0 5).2).readLastTimestamp).1 = some 60 :=
  claim1_stale_save_rejected dbAfter60 60 0 5 (by decide) (by decide)

/-- **C2.** The claim says every write invalidates any cached copy of
`last_timestamp`.  The SQLite backend's `save_timestamps` never clears
the memoized `_last_timestamp` attribute: after `save(60, 25)` then
`save(120, 30)` on one connection, the property still reads 60 although
the `Minutes` table's most recent saved minute is 120. -/
theorem claim2_cache_stale_after_write :
    ((sqTwoSaves.readLastTimestamp).1 = some 60) ∧
    maxTimestamp sqTwoSaves.minutes = some 120 :=
  ⟨rfl, rfl⟩

/-- **C3.** The claim says hour-ring writes wrap at the hour capacity 24
so no write targets an index outside `0..23`.  The SQLite
`save_timestamps` wraps the hour index with `% 60` (db.py line 173): with
the last hour in row id 23, the next hour sample is addressed to row id
`(23 + 1) % 60 = 24`, a nonexistent row, so the sample is silently lost
(the minute write of the same batch lands correctly). -/
theorem claim3_hour_wrap_modulus_bug :
    (SqliteDb.saveTimestamps dbHourRow23
        [(82860, some 5)] [(86400, some 5)]).hours = dbHourRow23.hours ∧
    findTsIdx (SqliteDb.saveTimestamps dbHourRow23
        [(82860, some 5)] [(86400, some 5)]).hours 86400 = none ∧
    (SqliteDb.saveTimestamps dbHourRow23
        [(82860, some 5)] [(86400, some 5)]).minutes.get? 1 =
      some ⟨some 82860, some 5⟩ :=
  ⟨rfl, rfl, rfl⟩

/-- **C4.** The claim says a new-minute save with a gap of `g` whole
minutes emits exactly `min(g-1, 59)` placeholders.  The source guards the
gap computation with `if self.last_timestamp:` (truthiness), so with a
prior save at timestamp 0 (`last_timestamp = 0`, which is falsy) a save
at 120 — a gap of two minutes — emits no placeholder at 60 at all. -/
theorem claim4_zero_last_timestamp_drops_placeholders :
    minuteData (some 0) 120 5 = [(120, some 5)] ∧
    (SqliteDb.save ((SqliteDb.save initSqlite 0 9).2) 120 5).1 = .ok () ∧
    findTsIdx
      ((SqliteDb.save ((SqliteDb.save initSqlite 0 9).2) 120 5).2).minutes
      60 = none ∧
    ((SqliteDb.save ((SqliteDb.save initSqlite 0 9).2) 120 5).2).minutes.get?
      1 = some ⟨some 120, some 5⟩ :=
  ⟨rfl, rfl, rfl, rfl⟩

/-- **C5.** The claim says the SQLite-backed and key-value-backed stores
produce identical observable results for identical operation histories.
After the identical history `save(60, 25); save(120, 30)` (both
successful on both backends), reading `last_timestamp` gives the stale
memoized 60 on the SQLite backend but 120 on the redis backend. -/
theorem claim5_backend_divergence :
    (SqliteDb.save initSqlite 60 25).1 = .ok () ∧
    (SqliteDb.save ((SqliteDb.save initSqlite 60 25).2) 120 30).1 = .ok () ∧
    (RedisDb.save initRedis 60 25).1 = .ok () ∧
    (RedisDb.save ((RedisDb.save initRedis 60 25).2) 120 30).1 = .ok () ∧
    (sqTwoSaves.readLastTimestamp).1 = some 60 ∧
    rdTwoSaves.lastTs = some 120 :=
  ⟨rfl, rfl, rfl, rfl, rfl, rfl⟩

/-- **C6 (counterexample).** The claim says the hour write-batch holds
placeholders only for hour boundaries strictly between the last hour and
`hour_ts`, none colliding with an already-written hour timestamp.  From
the state with one save at minute 60 (hour slot 0 written with 25), a
save at 3660 — whose truncated minute is not hour-aligned — computes the
hour gap from `minute_ts` and also writes a placeholder `(0, None)` into
hour row 1, duplicating the already-written hour timestamp 0; the claim
instead predicts row 1 to receive `(3600, 7)` directly. -/
theorem claim6_counterexample :
    ((dbAfter60.save 3660 7).2).hours.get? 0 = some ⟨some 0, some 25⟩ ∧
    ((dbAfter60.save 3660 7).2).hours.get? 1 = some ⟨some 0, none⟩ ∧
    ((dbAfter60.save 3660 7).2).hours.get? 1 ≠ some ⟨some 3600, some 7⟩ ∧
    ((dbAfter60.save 3660 7).2).hours.get? 2 = some ⟨some 3600, some 7⟩ :=
  ⟨rfl, rfl, by decide, rfl⟩

/-- **C6 (amended).** For every new-minute save: when the save's hour
truncation equals the current last-hour-timestamp, the existing hour slot
is folded in place to `min(existing, value)` and zero new hour slots are
written (the hour batch is empty and the hour table changes only at the
folded row).  Otherwise, with both hour marks hour-aligned and
`hour_ts ≤ minute_ts < hour_ts + 3600`, the batch is exactly `n`
placeholders `(hour_ts - 3600*(n-j), absent)` for `j = 0..n-1` (oldest
first) followed by `(hour_ts, value)`, where
`n = min(g - 1, 23)` if the save is exactly on the hour boundary and
`n = min(g, 23)` otherwise (`g` = whole hours between the marks, the
`min` coming from the `min(elapsed, 86400)` cap); `n ≤ 23`.  When the
save is not hour-aligned the first placeholder sits at the last-hour
timestamp itself, duplicating an already-written hour timestamp. -/
theorem claim6_hour_batch_amended :
    (∀ (db db1 : SqliteDb) (L t j : Nat) (v w : Int),
      db.readLastTimestamp = (some L, db1) →
      L < minuteTrunc t →
      hourTrunc L = hourTrunc t →
      findTsIdx db1.hours (hourTrunc t) = some j →
      db1.hours[j]? = some ⟨some (hourTrunc t), some w⟩ →
      (db.save t v).1 = .ok () ∧
      hourData (some (hourTrunc t)) (minuteTrunc t) (hourTrunc t) v = [] ∧
      ((db.save t v).2).hours =
        db1.hours.set j ⟨some (hourTrunc t), some (min w v)⟩ ∧
      ((db.save t v).2).hours.length = db1.hours.length) ∧
    (∀ (LH M H : Nat) (v : Int),
      LH % 3600 = 0 → H % 3600 = 0 → LH < H → H ≤ M → M < H + 3600 →
      hourData (some LH) M H v =
        (List.range (min (if M = H then (H - LH) / 3600 - 1
                          else (H - LH) / 3600) 23)).map
          (fun j =>
            ((H - 3600 *
              (min (if M = H then (H - LH) / 3600 - 1
                    else (H - LH) / 3600) 23 - j) : Nat),
             (none : Option Int)))
        ++ [(H, some v)] ∧
      min (if M = H then (H - LH) / 3600 - 1
           else (H - LH) / 3600) 23 ≤ 23) := by
  constructor
  · intro db db1 L t j v w hEq hlt hhr hj hgj
    have hne : ¬ (minuteTrunc t < L) := by omega
    have hne2 : ¬ (minuteTrunc t = L) := by omega
    have hsave : db.save t v =
        sqliteSaveNew db1 (some L) (minuteTrunc t) (hourTrunc t) v := by
      simp [SqliteDb.save, hEq, hne, hne2]
    have hfold :=
      sqliteSaveNew_fold db1 L (minuteTrunc t) (hourTrunc t) j v w hhr hj hgj
    rw [hsave]
    refine ⟨hfold.1, by simp [hourData], hfold.2, ?_⟩
    rw [hfold.2]
    simp
  · intro LH M H v hLHa hHa hLH hHM hMlt
    have hdvd : 3600 ∣ (H - LH) :=
      Nat.dvd_sub' (Nat.dvd_of_mod_eq_zero hHa) (Nat.dvd_of_mod_eq_zero hLHa)
    set g := (H - LH) / 3600 with hgdef
    have hg : 3600 * g = H - LH := Nat.mul_div_cancel' hdvd
    have hg1 : 1 ≤ g := by omega
    set n := min (if M = H then g - 1 else g) 23 with hndef
    have hcount : (min (M - LH) 86400 - 3600 + 3600 - 1) / 3600 = n := by
      by_cases hcap : M - LH ≤ 86400
      · rw [Nat.min_eq_left hcap]
        by_cases hMH : M = H
        · have hgle : g - 1 ≤ 23 := by omega
          have hn : n = g - 1 := by
            rw [hndef, if_pos hMH]
            exact Nat.min_eq_left hgle
          have he : M - LH - 3600 + 3600 - 1 = 3600 * (g - 1) + 3599 := by
            omega
          rw [he, Nat.mul_add_div (by norm_num), hn]
          norm_num
        · have hgle : g ≤ 23 := by omega
          have hn : n = g := by
            rw [hndef, if_neg hMH]
            exact Nat.min_eq_left hgle
          have he : M - LH - 3600 + 3600 - 1 = 3600 * g + (M - H - 1) := by
            omega
          rw [he, Nat.mul_add_div (by norm_num),
            Nat.div_eq_of_lt (by omega : M - H - 1 < 3600), hn]
          omega
      · rw [Nat.min_eq_right (by omega : (86400 : Nat) ≤ M - LH)]
        have hn : n = 23 := by
          rw [hndef]
          by_cases hMH : M = H
          · rw [if_pos hMH]
            exact Nat.min_eq_right (by omega)
          · rw [if_neg hMH]
            exact Nat.min_eq_right (by omega)
        rw [hn]
    have hlist : hourPlaceholders (some LH) M H =
        (List.range n).map
          (fun j => ((H - 3600 * (n - j) : Nat), (none : Option Int))) := by
      simp only [hourPlaceholders, pyRange]
      rw [hcount, List.map_map, ← List.map_reverse]
      conv_lhs => rw [List.range_eq_range', List.reverse_range']
      rw [List.map_map]
      refine List.map_congr_left ?_
      intro a ha
      rw [List.mem_range] at ha
      have he : 3600 + 3600 * (0 + n - 1 - a) = 3600 * (n - a) := by omega
      simp only [Function.comp]
      rw [he]
    refine ⟨?_, ?_⟩
    · have hne : (some LH == some H) = false := by
        simp [Nat.ne_of_lt hLH]
      simp only [hourData, hne, Bool.false_eq_true, if_false, hlist]
    · rw [hndef]
      exact Nat.min_le_right _ _

/-- Witness for C6 (amended): a save at 125 (minute 120, hour 0) from the
memoized state after minute 60 folds the hour-0 slot to the minimum; a
save at minute 3660 from last hour 0 (`g = 1`, off the hour boundary)
yields one placeholder at hour 0. -/
theorem claim6_witness :
    ((dbFold.save 125 40).1 = .ok () ∧
     hourData (some (hourTrunc 125)) (minuteTrunc 125) (hourTrunc 125) 40 =
       [] ∧
     ((dbFold.save 125 40).2).hours =
       dbFold.hours.set 0 ⟨some (hourTrunc 125), some (min 30 40)⟩ ∧
     ((dbFold.save 125 40).2).hours.length = dbFold.hours.length) ∧
    (hourData (some 0) 3660 3600 7 =
       (List.range (min (if 3660 = 3600 then (3600 - 0) / 3600 - 1
                         else (3600 - 0) / 3600) 23)).map
         (fun j =>
           ((3600 - 3600 *
             (min (if 3660 = 3600 then (3600 - 0) / 3600 - 1
                   else (3600 - 0) / 3600) 23 - j) : Nat),
            (none : Option Int)))
       ++ [(3600, some 7)] ∧
     min (if 3660 = 3600 then (3600 - 0) / 3600 - 1
          else (3600 - 0) / 3600) 23 ≤ 23) :=
  ⟨claim6_hour_batch_amended.1 dbFold dbFold 60 125 0 40 30 rfl (by decide)
     (by decide) (by decide) (by decide),
   claim6_hour_batch_amended.2 0 3660 3600 7 (by decide) (by decide)
     (by decide) (by decide) (by decide)⟩

/-- **C7.** For every store state whose `last_timestamp` property reads
`some L` and every save whose minute truncation equals `L`, with the
minute slot holding `(L, v1)` and the hour slot holding
`(hourTrunc t, w1)`, `save` succeeds, creates no new slots, and updates
the two existing slots in place to the minimum of old and new value. -/
theorem claim7_same_minute_fold (db db1 : SqliteDb) (L t i j : Nat)
    (v1 w1 v2 : Int)
    (hEq : db.readLastTimestamp = (some L, db1))
    (hm : minuteTrunc t = L)
    (hi : findTsIdx db1.minutes L = some i)
    (hgi : db1.minutes[i]? = some ⟨some L, some v1⟩)
    (hj : findTsIdx db1.hours (hourTrunc t) = some j)
    (hgj : db1.hours[j]? = some ⟨some (hourTrunc t), some w1⟩) :
    (db.save t v2).1 = .ok () ∧
    ((db.save t v2).2).minutes =
      db1.minutes.set i ⟨some L, some (min v1 v2)⟩ ∧
    ((db.save t v2).2).hours =
      db1.hours.set j ⟨some (hourTrunc t), some (min w1 v2)⟩ ∧
    ((db.save t v2).2).minutes.length = db.minutes.length ∧
    ((db.save t v2).2).hours.length = db.hours.length := by
  have hm1 : db1.minutes = db.minutes := by
    have h := readLastTimestamp_minutes db
    rw [hEq] at h
    exact h
  have hh1 : db1.hours = db.hours := by
    have h := readLastTimestamp_hours db
    rw [hEq] at h
    exact h
  have hval1 : db1.getTimestampValue .minutes L = .ok (some v1) := by
    simp [SqliteDb.getTimestampValue, ringSelect, hi, hgi]
  have hupd1 : db1.updateTimestamp .minutes L (pymin (some v1) v2) =
      .ok { db1 with
            minutes := updateTableRow db1.minutes i L (some (min v1 v2)) } := by
    simp [SqliteDb.updateTimestamp, ringSelect, hi, pymin]
  have hval2 :
      SqliteDb.getTimestampValue
        { db1 with
          minutes := updateTableRow db1.minutes i L (some (min v1 v2)) }
        .hours (hourTrunc t) = .ok (some w1) := by
    simp [SqliteDb.getTimestampValue, ringSelect, hj, hgj]
  have hupd2 :
      SqliteDb.updateTimestamp
        { db1 with
          minutes := updateTableRow db1.minutes i L (some (min v1 v2)) }
        .hours (hourTrunc t) (pymin (some w1) v2) =
      .ok { db1 with
            minutes := updateTableRow db1.minutes i L (some (min v1 v2)),
            hours :=
              updateTableRow db1.hours j (hourTrunc t) (some (min w1 v2)) }
      := by
    simp [SqliteDb.updateTimestamp, ringSelect, hj, pymin]
  have hsave : db.save t v2 =
      (.ok (),
       { db1 with
         minutes := updateTableRow db1.minutes i L (some (min v1 v2)),
         hours :=
           updateTableRow db1.hours j (hourTrunc t) (some (min w1 v2)) })
      := by
    simp only [SqliteDb.save, hEq, hm]
    simp [hval1, hupd1, hval2, hupd2]
  rw [hsave]
  refine ⟨rfl, by simp [updateTableRow], by simp [updateTableRow], ?_, ?_⟩
  · simp [updateTableRow, hm1]
  · simp [updateTableRow, hh1]

/-- Witness for C7: a store with `(60, 25)` in the minute ring and
`(0, 30)` in the hour ring folds `save(90, 20)` into both slots. -/
theorem claim7_witness :
    (dbFold.save 90 20).1 = .ok () ∧
    ((dbFold.save 90 20).2).minutes =
      dbFold.minutes.set 0 ⟨some 60, some (min 25 20)⟩ ∧
    ((dbFold.save 90 20).2).hours =
      dbFold.hours.set 0 ⟨some (hourTrunc 90), some (min 30 20)⟩ ∧
    ((dbFold.save 90 20).2).minutes.length = dbFold.minutes.length ∧
    ((dbFold.save 90 20).2).hours.length = dbFold.hours.length :=
  claim7_same_minute_fold dbFold dbFold 60 90 0 0 25 30 20 rfl (by decide)
    (by decide) (by decide) (by decide) (by decide)

/-- **C8.** The claim says that for gap-free in-order saves on one
instance, `query("minutes")` is strictly increasing and ends with the
most recent save.  After `save(60,25); save(120,30); save(180,35)` on one
SQLite connection, the stale memoized `last_timestamp` makes the third
save overwrite `(120, 30)` with a placeholder and rotate around slot 0,
so the query ends with the *first* save `(60, 25)`, not with
`(180, 35)`. -/
theorem claim8_query_order_broken :
    (SqliteDb.minutesProp sqThreeSaves).1.getLast? =
      some ⟨some 60, some 25⟩ ∧
    (SqliteDb.minutesProp sqThreeSaves).1.getLast? ≠
      some ⟨some 180, some 35⟩ ∧
    (SqliteDb.minutesProp sqThreeSaves).1.head? = some ⟨some 120, none⟩ :=
  ⟨rfl, by decide, rfl⟩

/-- **C9.** The claim (and the base-class docstring) say `get_value`
returns absent rather than failing when no slot holds the timestamp.  The
SQLite implementation raises a `TypeError` (`cur.fetchone()` is `None`
and is subscripted); the redis implementation returns `None` as
documented. -/
theorem claim9_get_value_raises :
    SqliteDb.getTimestampValue initSqlite .minutes 999 =
      .error "TypeError" ∧
    (RedisDb.getTimestampValue initRedis .minutes 999).1 = none :=
  ⟨rfl, rfl⟩

/-- **C10.** For every connection descriptor whose construction succeeds
on a store that does not yet exist, the backend comes up with a minute
ring of exactly 60 slots and an hour ring of exactly 24 slots, all
pre-populated with absent samples, and with `last_timestamp` absent. -/
theorem claim10_open_database_fresh (engine : String) (db : SqliteDb)
    (h : open_database engine = .ok db) :
    db.minutes.length = 60 ∧ db.hours.length = 24 ∧
    (∀ s ∈ db.minutes, s = emptySlot) ∧
    (∀ s ∈ db.hours, s = emptySlot) ∧
    (db.readLastTimestamp).1 = none := by
  unfold open_database at h
  by_cases he : engine = "SQLite"
  · rw [if_pos he] at h
    injection h with h
    subst h
    refine ⟨rfl, rfl, ?_, ?_, rfl⟩
    · exact fun s hs => List.eq_of_mem_replicate hs
    · exact fun s hs => List.eq_of_mem_replicate hs
  · rw [if_neg he] at h
    exact absurd h (by simp)

/-- Witness for C10: the `SQLite` engine tag on a fresh store. -/
theorem claim10_witness :
    open_database "SQLite" = .ok initSqlite ∧
    (initSqlite.minutes.length = 60 ∧ initSqlite.hours.length = 24 ∧
     (∀ s ∈ initSqlite.minutes, s = emptySlot) ∧
     (∀ s ∈ initSqlite.hours, s = emptySlot) ∧
     (initSqlite.readLastTimestamp).1 = none) :=
  ⟨rfl, claim10_open_database_fresh "SQLite" initSqlite rfl⟩

end RRD
